import Mathlib

/-!
Verification of the CM3 fault handler (src/src/fault_handler.c).

The C module decodes the Cortex-M3 fault status registers into a textual
diagnostic report.  We embed the reporting functions as pure Lean functions
producing the list of strings passed to printErrorMsg, and model each
volatile register as a read oracle so that the number of reads of HFSR and
CFSR during one invocation is observable.
-/

namespace CM3Fault

/-- Bit definitions for the SCB_CFSR register, memory-management sub-field. -/
def SCB_CFSR_IACCVIOL : Nat := 0x00000001

def SCB_CFSR_DACCVIOL : Nat := 0x00000002

def SCB_CFSR_MUNSTKERR : Nat := 0x00000008

def SCB_CFSR_MSTKERR : Nat := 0x00000010

def SCB_CFSR_MMARVALID : Nat := 0x00000080

/-- Bit definitions for the SCB_CFSR register, bus-fault sub-field. -/
def SCB_CFSR_IBUSERR : Nat := 0x00000100

def SCB_CFSR_PRECISERR : Nat := 0x00000200

def SCB_CFSR_IMPRECISERR : Nat := 0x00000400

def SCB_CFSR_UNSTKERR : Nat := 0x00000800

def SCB_CFSR_STKERR : Nat := 0x00001000

def SCB_CFSR_BFARVALID : Nat := 0x00008000

/-- Bit definitions for the SCB_CFSR register, usage-fault sub-field. -/
def SCB_CFSR_UNDEFINSTR : Nat := 0x00010000

def SCB_CFSR_INVSTATE : Nat := 0x00020000

def SCB_CFSR_INVPC : Nat := 0x00040000

def SCB_CFSR_NOCP : Nat := 0x00080000

def SCB_CFSR_UNALIGNED : Nat := 0x01000000

def SCB_CFSR_DIVBYZERO : Nat := 0x02000000

/-- Hexadecimal digit character, upper or lower case. -/
def hexChar (upper : Bool) (d : Nat) : Char :=
  if d < 10 then Char.ofNat (48 + d)
  else if upper then Char.ofNat (55 + d) else Char.ofNat (87 + d)

/-- Hexadecimal digits of n, least significant first, fuel-bounded. -/
def hexRevDigits : Nat → Nat → List Nat
  | 0, _ => []
  | fuel + 1, n => if n = 0 then [] else n % 16 :: hexRevDigits fuel (n / 16)

/-- Models the printf hexadecimal conversions used in fault_handler.c: an
unsigned value rendered with a minimum digit count (zero padded on the
left).  Eight digits of fuel match the 32-bit width of every value the C
code prints, so the low 32 bits of n determine the result exactly, as for a
uint32_t argument. -/
def hexString (upper : Bool) (width n : Nat) : String :=
  let ds := ((hexRevDigits 8 n).reverse).map (hexChar upper)
  String.mk (List.replicate (width - ds.length) '0' ++ ds)

/-- Embeds printUsageErrorMsg: the strings printed for a given CFSR value. -/
def printUsageErrorMsg (CFSRValue : Nat) : List String :=
  ["Usage fault: "]
  ++ (if CFSRValue &&& SCB_CFSR_DIVBYZERO ≠ 0 then ["Divide by zero\n"] else [])
  ++ (if CFSRValue &&& SCB_CFSR_INVSTATE ≠ 0 then
        ["Invalid combination of EPSR and instruction,\nsuch as calling a null pointer function\n"]
      else [])
  ++ (if CFSRValue &&& SCB_CFSR_UNDEFINSTR ≠ 0 then
        ["The processor attempted to excecute an undefined instruction\n"]
      else [])
  ++ (if CFSRValue &&& SCB_CFSR_INVPC ≠ 0 then
        ["Attempt to load EXC_RETURN into pc illegally\n"]
      else [])
  ++ (if CFSRValue &&& SCB_CFSR_NOCP ≠ 0 then
        ["Attempt to use a coprocessor instruction\n"]
      else [])
  ++ (if CFSRValue &&& SCB_CFSR_UNALIGNED ≠ 0 then
        ["Attempt to make an unaligned memory access\n"]
      else [])

/-- The line printed by printBusFaultErrorMsg when BFARVALID is set. -/
def BFARLine (bfar : Nat) : String :=
  "Bus Fault Address Register address valid flag\nBFAR value = 0x"
  ++ hexString true 8 bfar ++ "\n"

/-- Embeds printBusFaultErrorMsg: the CFSR argument is first masked to the
bus sub-field, the masked value is rendered with a minimum of two hex
digits, and SCB->BFAR (argument bfar) is read and printed only when the
valid flag is set. -/
def printBusFaultErrorMsg (CFSRValue0 bfar : Nat) : List String :=
  let CFSRValue := CFSRValue0 &&& 0x0000FF00
  ["Bus fault: ", hexString true 2 CFSRValue ++ "\n"]
  ++ (if CFSRValue &&& SCB_CFSR_IBUSERR ≠ 0 then ["Instruction bus error\n"] else [])
  ++ (if CFSRValue &&& SCB_CFSR_PRECISERR ≠ 0 then ["Precise data bus error\n"] else [])
  ++ (if CFSRValue &&& SCB_CFSR_IMPRECISERR ≠ 0 then ["Imprecise data bus error\n"] else [])
  ++ (if CFSRValue &&& SCB_CFSR_UNSTKERR ≠ 0 then ["Unstacking error\n"] else [])
  ++ (if CFSRValue &&& SCB_CFSR_STKERR ≠ 0 then ["Stacking error\n"] else [])
  ++ (if CFSRValue &&& SCB_CFSR_BFARVALID ≠ 0 then [BFARLine bfar] else [])

/-- The line printed by printMemoryManagementErrorMsg when MMARVALID is set. -/
def MMFARLine (mmfar : Nat) : String :=
  "Memory Manage Address Register address valid flag\nMMFAR value = 0x"
  ++ hexString true 8 mmfar ++ "\n"

/-- Embeds printMemoryManagementErrorMsg: CFSR masked to the memory
sub-field, rendered with a minimum of two hex digits, then the matching
sub-reasons, then the MMFAR line when the valid flag is set. -/
def printMemoryManagementErrorMsg (CFSRValue0 mmfar : Nat) : List String :=
  let CFSRValue := CFSRValue0 &&& 0x000000FF
  ["Memory Management (MPU) fault: ", hexString true 2 CFSRValue ++ "\n"]
  ++ (if CFSRValue &&& SCB_CFSR_IACCVIOL ≠ 0 then ["Instruction access violation\n"] else [])
  ++ (if CFSRValue &&& SCB_CFSR_DACCVIOL ≠ 0 then ["Data access violation\n"] else [])
  ++ (if CFSRValue &&& SCB_CFSR_MUNSTKERR ≠ 0 then ["Unstacking error\n"] else [])
  ++ (if CFSRValue &&& SCB_CFSR_MSTKERR ≠ 0 then ["Stacking error\n"] else [])
  ++ (if CFSRValue &&& SCB_CFSR_MMARVALID ≠ 0 then [MMFARLine mmfar] else [])

/-- Indices of the 8-word fault frame, from the C enum. -/
def r0 : Fin 8 := 0

def r1 : Fin 8 := 1

def r2 : Fin 8 := 2

def r3 : Fin 8 := 3

def r12 : Fin 8 := 4

def lr : Fin 8 := 5

def pc : Fin 8 := 6

def psr : Fin 8 := 7

/-- Embeds DumpStack: the eight register lines followed by the trailer
containing the best-guess fault address (lr when pc is zero, pc
otherwise). -/
def DumpStack (stack : Fin 8 → Nat) : List String :=
  let code_address_error := if stack pc = 0 then stack lr else stack pc
  ["\nr0  = 0x" ++ hexString false 8 (stack r0) ++ "\n",
   "r1  = 0x" ++ hexString false 8 (stack r1) ++ "\n",
   "r2  = 0x" ++ hexString false 8 (stack r2) ++ "\n",
   "r3  = 0x" ++ hexString false 8 (stack r3) ++ "\n",
   "r12 = 0x" ++ hexString false 8 (stack r12) ++ "\n",
   "lr  = 0x" ++ hexString false 8 (stack lr) ++ "\n",
   "pc  = 0x" ++ hexString false 8 (stack pc) ++ "\n",
   "psr = 0x" ++ hexString false 8 (stack psr) ++ "\n",
   "\n--\t--\t--\nHard fault occurred at address 0x"
     ++ hexString false 8 code_address_error ++ ".\nFind high-level ",
   "function with\nDisassembly window or Map file\n--\t--\t--\n"]

/-- The volatile SCB registers as read oracles: field f applied to i is the
value the hardware returns for the i-th read of that register during one
invocation of the handler.  A register whose value does not change during
the report is a constant oracle. -/
structure SCBStream where
  hfsr : Nat → Nat
  cfsr : Nat → Nat
  bfar : Nat → Nat
  mmfar : Nat → Nat

/-- Oracle for hardware whose registers are stable during the report. -/
def constStream (h c b m : Nat) : SCBStream :=
  ⟨fun _ => h, fun _ => c, fun _ => b, fun _ => m⟩

/-- Result of one invocation of Hard_Fault_Handler: the printed lines, the
final contents of the 8-word frame, and how many times each status register
was read. -/
structure RunResult where
  output : List String
  stack : Fin 8 → Nat
  hfsrReads : Nat
  cfsrReads : Nat

/-- Usage branch of Hard_Fault_Handler.  On entry CFSR has been read twice
(read 0 for the printed value line, read 1 for this branch's test); when
the test succeeds, read 2 is passed to printUsageErrorMsg.  Returns the
emitted lines and the running CFSR read count. -/
def usageStep (s : SCBStream) : List String × Nat :=
  if s.cfsr 1 &&& 0xFFFF0000 ≠ 0 then (printUsageErrorMsg (s.cfsr 2), 3) else ([], 2)

/-- Bus branch of Hard_Fault_Handler, with k CFSR reads already done: read
k is this branch's test, read k+1 is passed to printBusFaultErrorMsg. -/
def busStep (s : SCBStream) (k : Nat) : List String × Nat :=
  if s.cfsr k &&& 0xFF00 ≠ 0 then
    (printBusFaultErrorMsg (s.cfsr (k + 1)) (s.bfar 0), k + 2)
  else ([], k + 1)

/-- Memory branch of Hard_Fault_Handler, with k CFSR reads already done. -/
def memStep (s : SCBStream) (k : Nat) : List String × Nat :=
  if s.cfsr k &&& 0xFF ≠ 0 then
    (printMemoryManagementErrorMsg (s.cfsr (k + 1)) (s.mmfar 0), k + 2)
  else ([], k + 1)

/-- Embeds Hard_Fault_Handler.  HFSR is read for the printed value line
(read 0) and again for the forced-bit test (read 1); inside the forced
branch CFSR is read for its value line, then once per sub-field test and
once more per taken branch, in source order usage, bus, memory.  The frame
is only read, and the trailing infinite loop is not part of the report. -/
def Hard_Fault_Handler (s : SCBStream) (stack : Fin 8 → Nat) : RunResult :=
  if s.hfsr 1 &&& (1 <<< 30) ≠ 0 then
    let u := usageStep s
    let b := busStep s u.2
    let m := memStep s b.2
    { output := ["Hard Fault!!!\n",
                 "SCB->HFSR = 0x" ++ hexString false 8 (s.hfsr 0) ++ "\n",
                 "Forced Hard Fault\n",
                 "SCB->CFSR = 0x" ++ hexString false 8 (s.cfsr 0) ++ "\n"]
                ++ u.1 ++ b.1 ++ m.1 ++ DumpStack stack
      stack := stack
      hfsrReads := 2
      cfsrReads := m.2 }
  else
    { output := ["Hard Fault!!!\n",
                 "SCB->HFSR = 0x" ++ hexString false 8 (s.hfsr 0) ++ "\n"]
                ++ DumpStack stack
      stack := stack
      hfsrReads := 2
      cfsrReads := 0 }

/-! Helper lemmas about the hex rendering. -/

lemma hexRevDigits_length_le (fuel : Nat) : ∀ n, (hexRevDigits fuel n).length ≤ fuel := by
  induction fuel with
  | zero => intro n; simp [hexRevDigits]
  | succ f ih =>
    intro n
    simp only [hexRevDigits]
    split
    · simp
    · simpa using Nat.succ_le_succ (ih (n / 16))

lemma hexRevDigits_length_lt (fuel : Nat) :
    ∀ k n, n < 16 ^ k → (hexRevDigits fuel n).length ≤ k := by
  induction fuel with
  | zero => intro k n _; simp [hexRevDigits]
  | succ f ih =>
    intro k n hn
    simp only [hexRevDigits]
    split
    · simp
    · rename_i h0
      cases k with
      | zero => simp at hn; omega
      | succ k =>
        simp only [List.length_cons]
        have hdiv : n / 16 < 16 ^ k := by
          rw [Nat.div_lt_iff_lt_mul (by norm_num : (0 : Nat) < 16)]
          calc n < 16 ^ (k + 1) := hn
            _ = 16 ^ k * 16 := by rw [Nat.pow_succ]
        exact Nat.succ_le_succ (ih k (n / 16) hdiv)

lemma hexString_length (u : Bool) (w n : Nat) :
    (hexString u w n).length =
      (w - (hexRevDigits 8 n).length) + (hexRevDigits 8 n).length := by
  simp [hexString, String.length]

lemma hexString_length8 (u : Bool) (n : Nat) : (hexString u 8 n).length = 8 := by
  have := hexRevDigits_length_le 8 n
  rw [hexString_length]
  omega

lemma hexString_length_le8 (u : Bool) {w : Nat} (hw : w ≤ 8) (n : Nat) :
    (hexString u w n).length ≤ 8 := by
  have := hexRevDigits_length_le 8 n
  rw [hexString_length]
  omega

lemma hexString2_length_eq_two (u : Bool) {n : Nat} (hn : n < 256) :
    (hexString u 2 n).length = 2 := by
  have h2 : (hexRevDigits 8 n).length ≤ 2 :=
    hexRevDigits_length_lt 8 2 n (by norm_num; omega)
  rw [hexString_length]
  omega

lemma hexString2_length_le_four (u : Bool) {n : Nat} (hn : n < 65536) :
    (hexString u 2 n).length ≤ 4 := by
  have h4 : (hexRevDigits 8 n).length ≤ 4 :=
    hexRevDigits_length_lt 8 4 n (by norm_num; omega)
  rw [hexString_length]
  omega

/-! Helper lemmas about bit masks. -/

lemma and_submask (c S t : Nat) (h : S &&& t = t) : c &&& t = (c &&& S) &&& t := by
  rw [Nat.and_assoc, h]

lemma and_eq_zero_of_submask {c S t : Nat} (h : S &&& t = t) (hz : c &&& S = 0) :
    c &&& t = 0 := by
  rw [and_submask c S t h, hz, Nat.zero_and]

lemma and_eq_and_of_submask {c c' S t : Nat} (h : S &&& t = t)
    (he : c &&& S = c' &&& S) : c &&& t = c' &&& t := by
  rw [and_submask c S t h, and_submask c' S t h, he]

/-! The category headers and the extraction of category blocks from a
report. -/

lemma string_ne_of_length {a b : String} (h : a.length ≠ b.length) : a ≠ b :=
  fun e => h (e ▸ rfl)

/-- The three category header strings, in the mandated report order. -/
def categoryHeaders : List String :=
  ["Usage fault: ", "Bus fault: ", "Memory Management (MPU) fault: "]

/-- The subsequence of a report made of the category headers it emits. -/
def categoriesOf (out : List String) : List String :=
  out.filter (fun s => decide (s ∈ categoryHeaders))

lemma categoriesOf_nil : categoriesOf [] = [] := rfl

lemma categoriesOf_append (a b : List String) :
    categoriesOf (a ++ b) = categoriesOf a ++ categoriesOf b :=
  List.filter_append a b

lemma categoriesOf_cons_skip {s : String} (hs : s ∉ categoryHeaders)
    (l : List String) : categoriesOf (s :: l) = categoriesOf l := by
  simp [categoriesOf, List.filter_cons, hs]

lemma categoriesOf_cons_keep {s : String} (hs : s ∈ categoryHeaders)
    (l : List String) : categoriesOf (s :: l) = s :: categoriesOf l := by
  simp [categoriesOf, List.filter_cons, hs]

lemma mem_categoryHeaders_length {s : String} (hs : s ∈ categoryHeaders) :
    s.length = 13 ∨ s.length = 11 ∨ s.length = 31 := by
  simp only [categoryHeaders, List.mem_cons, List.not_mem_nil, or_false] at hs
  rcases hs with rfl | rfl | rfl
  · left; rfl
  · right; left; rfl
  · right; right; rfl

lemma not_header_of_length {s : String}
    (h : s.length ≠ 13 ∧ s.length ≠ 11 ∧ s.length ≠ 31) : s ∉ categoryHeaders :=
  fun hs => by rcases mem_categoryHeaders_length hs with e | e | e <;> omega

lemma categoriesOf_eq_nil_of {l : List String} (h : ∀ s ∈ l, s ∉ categoryHeaders) :
    categoriesOf l = [] := by
  induction l with
  | nil => rfl
  | cons a t ih =>
    rw [categoriesOf_cons_skip (h a (List.mem_cons_self a t))]
    exact ih fun s hs => h s (List.mem_cons_of_mem a hs)

lemma hexline_not_header {pre suf : String} (u : Bool) (n : Nat)
    (h : pre.length + 8 + suf.length ≠ 13 ∧ pre.length + 8 + suf.length ≠ 11 ∧
         pre.length + 8 + suf.length ≠ 31) :
    (pre ++ hexString u 8 n ++ suf) ∉ categoryHeaders := by
  apply not_header_of_length
  rw [String.length_append, String.length_append, hexString_length8]
  exact h

lemma token_not_header {w : Nat} (hw : w ≤ 8) (u : Bool) (n : Nat) :
    (hexString u w n ++ "\n") ∉ categoryHeaders := by
  apply not_header_of_length
  have h := hexString_length_le8 u hw n
  have h2 : 1 ≤ (hexString u w n).length + 1 := by omega
  rw [String.length_append, show ("\n" : String).length = 1 from rfl]
  omega

lemma BFARLine_not_header (b : Nat) : BFARLine b ∉ categoryHeaders := by
  rw [BFARLine]
  exact hexline_not_header true b (by decide)

lemma MMFARLine_not_header (m : Nat) : MMFARLine m ∉ categoryHeaders := by
  rw [MMFARLine]
  exact hexline_not_header true m (by decide)

lemma categoriesOf_printUsage (c : Nat) :
    categoriesOf (printUsageErrorMsg c) = ["Usage fault: "] := by
  simp only [printUsageErrorMsg]
  split_ifs <;> decide

lemma categoriesOf_printBus (c b : Nat) :
    categoriesOf (printBusFaultErrorMsg c b) = ["Bus fault: "] := by
  have htok := token_not_header (by omega : 2 ≤ 8) true (c &&& 0x0000FF00)
  have hline := BFARLine_not_header b
  have hh : ("Bus fault: " : String) ∈ categoryHeaders := by decide
  have h1 : ("Instruction bus error\n" : String) ∉ categoryHeaders := by decide
  have h2 : ("Precise data bus error\n" : String) ∉ categoryHeaders := by decide
  have h3 : ("Imprecise data bus error\n" : String) ∉ categoryHeaders := by decide
  have h4 : ("Unstacking error\n" : String) ∉ categoryHeaders := by decide
  have h5 : ("Stacking error\n" : String) ∉ categoryHeaders := by decide
  simp only [printBusFaultErrorMsg, categoriesOf_append, apply_ite categoriesOf,
    categoriesOf_nil, categoriesOf_cons_keep hh, categoriesOf_cons_skip htok,
    categoriesOf_cons_skip hline, categoriesOf_cons_skip h1, categoriesOf_cons_skip h2,
    categoriesOf_cons_skip h3, categoriesOf_cons_skip h4, categoriesOf_cons_skip h5,
    ite_self, List.append_nil]

lemma categoriesOf_printMem (c m : Nat) :
    categoriesOf (printMemoryManagementErrorMsg c m) = ["Memory Management (MPU) fault: "] := by
  have htok := token_not_header (by omega : 2 ≤ 8) true (c &&& 0x000000FF)
  have hline := MMFARLine_not_header m
  have hh : ("Memory Management (MPU) fault: " : String) ∈ categoryHeaders := by decide
  have h1 : ("Instruction access violation\n" : String) ∉ categoryHeaders := by decide
  have h2 : ("Data access violation\n" : String) ∉ categoryHeaders := by decide
  have h3 : ("Unstacking error\n" : String) ∉ categoryHeaders := by decide
  have h4 : ("Stacking error\n" : String) ∉ categoryHeaders := by decide
  simp only [printMemoryManagementErrorMsg, categoriesOf_append, apply_ite categoriesOf,
    categoriesOf_nil, categoriesOf_cons_keep hh, categoriesOf_cons_skip htok,
    categoriesOf_cons_skip hline, categoriesOf_cons_skip h1, categoriesOf_cons_skip h2,
    categoriesOf_cons_skip h3, categoriesOf_cons_skip h4, ite_self, List.append_nil]

lemma categoriesOf_DumpStack (stack : Fin 8 → Nat) : categoriesOf (DumpStack stack) = [] := by
  apply categoriesOf_eq_nil_of
  intro s hs
  simp only [DumpStack, List.mem_cons, List.not_mem_nil, or_false] at hs
  rcases hs with rfl | rfl | rfl | rfl | rfl | rfl | rfl | rfl | rfl | rfl
  · exact hexline_not_header false _ (by decide)
  · exact hexline_not_header false _ (by decide)
  · exact hexline_not_header false _ (by decide)
  · exact hexline_not_header false _ (by decide)
  · exact hexline_not_header false _ (by decide)
  · exact hexline_not_header false _ (by decide)
  · exact hexline_not_header false _ (by decide)
  · exact hexline_not_header false _ (by decide)
  · exact hexline_not_header false _ (by decide)
  · decide

lemma categoriesOf_forcedHead (h c : Nat) :
    categoriesOf ["Hard Fault!!!\n", "SCB->HFSR = 0x" ++ hexString false 8 h ++ "\n",
                  "Forced Hard Fault\n", "SCB->CFSR = 0x" ++ hexString false 8 c ++ "\n"]
      = [] := by
  apply categoriesOf_eq_nil_of
  intro s hs
  simp only [List.mem_cons, List.not_mem_nil, or_false] at hs
  rcases hs with rfl | rfl | rfl | rfl
  · decide
  · exact hexline_not_header false _ (by decide)
  · decide
  · exact hexline_not_header false _ (by decide)

lemma categoriesOf_plainHead (h : Nat) :
    categoriesOf ["Hard Fault!!!\n", "SCB->HFSR = 0x" ++ hexString false 8 h ++ "\n"]
      = [] := by
  apply categoriesOf_eq_nil_of
  intro s hs
  simp only [List.mem_cons, List.not_mem_nil, or_false] at hs
  rcases hs with rfl | rfl
  · decide
  · exact hexline_not_header false _ (by decide)

/-- C9: one invocation of Hard_Fault_Handler, register dump included, only
reads the 8-word fault frame and never writes to it: all eight words are
unchanged at the end of the report, for every register oracle. -/
theorem frame_read_only (s : SCBStream) (stack : Fin 8 → Nat) :
    (Hard_Fault_Handler s stack).stack = stack := by
  rw [Hard_Fault_Handler]
  split <;> rfl

/-- C7: the trailer of the register dump reports the link-register word as
the best-guess fault address when the program-counter word is zero, and the
program-counter word otherwise; concretely pc = 0 with lr = 0x08001234
yields 0x08001234, and pc = 0x08005678 yields 0x08005678 whatever lr is. -/
theorem best_guess_fault_address (stack : Fin 8 → Nat) :
    (DumpStack stack)[8]? =
      some ("\n--\t--\t--\nHard fault occurred at address 0x"
        ++ hexString false 8 (if stack pc = 0 then stack lr else stack pc)
        ++ ".\nFind high-level ")
    ∧ (DumpStack fun i => if i = lr then 0x08001234 else 0)[8]? =
        some "\n--\t--\t--\nHard fault occurred at address 0x08001234.\nFind high-level "
    ∧ ∀ lrv : Nat,
        (DumpStack fun i => if i = pc then 0x08005678 else if i = lr then lrv else 0)[8]? =
          some "\n--\t--\t--\nHard fault occurred at address 0x08005678.\nFind high-level " := by
  refine ⟨by simp [DumpStack], by decide, ?_⟩
  intro lrv
  simp only [DumpStack]
  norm_num [pc, lr]
  decide

/-- C4: when the forced bit (bit 30 of the second HFSR read) is clear, the
report is the banner, the HFSR value line and the register dump, with zero
category blocks, and CFSR is never read, whatever it contains. -/
theorem not_forced_report (s : SCBStream) (stack : Fin 8 → Nat)
    (h30 : s.hfsr 1 &&& (1 <<< 30) = 0) :
    (Hard_Fault_Handler s stack).output =
      ["Hard Fault!!!\n", "SCB->HFSR = 0x" ++ hexString false 8 (s.hfsr 0) ++ "\n"]
        ++ DumpStack stack
    ∧ (Hard_Fault_Handler s stack).cfsrReads = 0
    ∧ categoriesOf (Hard_Fault_Handler s stack).output = [] := by
  have hcond : ¬(s.hfsr 1 &&& (1 <<< 30) ≠ 0) := by simpa using h30
  have h1 : ("Hard Fault!!!\n" : String) ∉ categoryHeaders := by decide
  have h2 : ("SCB->HFSR = 0x" ++ hexString false 8 (s.hfsr 0) ++ "\n") ∉ categoryHeaders :=
    hexline_not_header false (s.hfsr 0) (by decide)
  simp only [Hard_Fault_Handler, if_neg hcond]
  refine ⟨trivial, trivial, ?_⟩
  simp only [List.cons_append, List.nil_append]
  rw [categoriesOf_cons_skip h1, categoriesOf_cons_skip h2, categoriesOf_DumpStack]

/-- Witness for C4 at HFSR = 0, CFSR = 0x02000101. -/
theorem not_forced_report_witness :
    (constStream 0 0x02000101 0 0).hfsr 1 &&& (1 <<< 30) = 0 ∧
    ((Hard_Fault_Handler (constStream 0 0x02000101 0 0) fun _ => 0).output =
       ["Hard Fault!!!\n",
        "SCB->HFSR = 0x" ++ hexString false 8 ((constStream 0 0x02000101 0 0).hfsr 0) ++ "\n"]
         ++ DumpStack (fun _ => 0)
     ∧ (Hard_Fault_Handler (constStream 0 0x02000101 0 0) fun _ => 0).cfsrReads = 0
     ∧ categoriesOf (Hard_Fault_Handler (constStream 0 0x02000101 0 0) fun _ => 0).output = []) :=
  ⟨by decide, not_forced_report (constStream 0 0x02000101 0 0) (fun _ => 0) (by decide)⟩

/-- C1 fails on the code: with the forced bit set and all three sub-fields
nonzero, one invocation reads HFSR twice (value line and forced test) and
CFSR seven times, not once each. -/
theorem read_once_counterexample :
    ¬ ((Hard_Fault_Handler (constStream 0x40000000 0x02000101 0 0) fun _ => 0).hfsrReads = 1 ∧
       (Hard_Fault_Handler (constStream 0x40000000 0x02000101 0 0) fun _ => 0).cfsrReads = 1) := by
  decide

/-- C1 amended: with a stable register oracle, one invocation reads HFSR
exactly twice; CFSR is read 4 + (number of nonzero sub-fields) times when
the forced bit is set (once for the value line, once per sub-field test,
once more per taken category branch) and 0 times otherwise. -/
theorem read_counts (h c b m : Nat) (stack : Fin 8 → Nat) :
    (Hard_Fault_Handler (constStream h c b m) stack).hfsrReads = 2 ∧
    (Hard_Fault_Handler (constStream h c b m) stack).cfsrReads =
      (if h &&& (1 <<< 30) ≠ 0 then
        4 + ((if c &&& 0xFFFF0000 ≠ 0 then 1 else 0)
           + (if c &&& 0xFF00 ≠ 0 then 1 else 0)
           + (if c &&& 0xFF ≠ 0 then 1 else 0))
       else 0) := by
  simp only [Hard_Fault_Handler, usageStep, busStep, memStep, constStream]
  split_ifs <;> simp

/-- C3: with the forced bit set and a stable register oracle, the category
headers appearing in the report are exactly those of the nonzero sub-fields,
always in the order usage, bus, memory, whatever the sub-field values. -/
theorem categories_fixed_order (h c b m : Nat) (stack : Fin 8 → Nat)
    (h30 : h &&& (1 <<< 30) ≠ 0) :
    categoriesOf (Hard_Fault_Handler (constStream h c b m) stack).output =
      (if c &&& 0xFFFF0000 ≠ 0 then ["Usage fault: "] else [])
      ++ (if c &&& 0xFF00 ≠ 0 then ["Bus fault: "] else [])
      ++ (if c &&& 0xFF ≠ 0 then ["Memory Management (MPU) fault: "] else []) := by
  have n1 : ("Hard Fault!!!\n" : String) ∉ categoryHeaders := by decide
  have n2 : ("SCB->HFSR = 0x" ++ hexString false 8 h ++ "\n") ∉ categoryHeaders :=
    hexline_not_header false h (by decide)
  have n3 : ("Forced Hard Fault\n" : String) ∉ categoryHeaders := by decide
  have n4 : ("SCB->CFSR = 0x" ++ hexString false 8 c ++ "\n") ∉ categoryHeaders :=
    hexline_not_header false c (by decide)
  simp only [Hard_Fault_Handler, usageStep, busStep, memStep, constStream, if_pos h30]
  split_ifs <;>
    simp [categoriesOf_cons_skip n1, categoriesOf_cons_skip n2, categoriesOf_cons_skip n3,
      categoriesOf_cons_skip n4, categoriesOf_append, categoriesOf_printUsage,
      categoriesOf_printBus, categoriesOf_printMem, categoriesOf_DumpStack]

/-- Witness for C3: bits in all three sub-fields give exactly the three
headers in the fixed order. -/
theorem categories_fixed_order_witness :
    (0x40000000 : Nat) &&& (1 <<< 30) ≠ 0 ∧
    categoriesOf (Hard_Fault_Handler (constStream 0x40000000 0x02000101 0 0) fun _ => 0).output =
      (if (0x02000101 : Nat) &&& 0xFFFF0000 ≠ 0 then ["Usage fault: "] else [])
      ++ (if (0x02000101 : Nat) &&& 0xFF00 ≠ 0 then ["Bus fault: "] else [])
      ++ (if (0x02000101 : Nat) &&& 0xFF ≠ 0 then ["Memory Management (MPU) fault: "] else []) :=
  ⟨by decide, categories_fixed_order 0x40000000 0x02000101 0 0 (fun _ => 0) (by decide)⟩

/-- The usage sub-reasons in the spec's mandated order (§4.2 step 1), as
flag-bit / message pairs.  printUsageErrorMsg emits exactly the matching
messages in this order. -/
def usageReasonTable : List (Nat × String) :=
  [(SCB_CFSR_DIVBYZERO, "Divide by zero\n"),
   (SCB_CFSR_INVSTATE,
     "Invalid combination of EPSR and instruction,\nsuch as calling a null pointer function\n"),
   (SCB_CFSR_UNDEFINSTR, "The processor attempted to excecute an undefined instruction\n"),
   (SCB_CFSR_INVPC, "Attempt to load EXC_RETURN into pc illegally\n"),
   (SCB_CFSR_NOCP, "Attempt to use a coprocessor instruction\n"),
   (SCB_CFSR_UNALIGNED, "Attempt to make an unaligned memory access\n")]

lemma printUsage_eq_table (c : Nat) :
    printUsageErrorMsg c =
      "Usage fault: "
        :: (usageReasonTable.filter fun p => decide (c &&& p.1 ≠ 0)).map Prod.snd := by
  simp only [printUsageErrorMsg, usageReasonTable, List.filter_cons, List.filter_nil,
    decide_eq_true_eq]
  split_ifs <;> simp_all

/-- C5: when only usage-sub-field bits are set (forced bit set, stable
oracle), the report is the two status lines, one single "Usage fault: "
category whose sub-reasons are exactly the set flags in the mandated order,
and the register dump — no bus and no memory category. -/
theorem usage_only_report (h c b m : Nat) (stack : Fin 8 → Nat)
    (h30 : h &&& (1 <<< 30) ≠ 0) (hu : c &&& 0xFFFF0000 ≠ 0) (hlow : c &&& 0xFFFF = 0) :
    (Hard_Fault_Handler (constStream h c b m) stack).output =
      ["Hard Fault!!!\n", "SCB->HFSR = 0x" ++ hexString false 8 h ++ "\n",
       "Forced Hard Fault\n", "SCB->CFSR = 0x" ++ hexString false 8 c ++ "\n",
       "Usage fault: "]
      ++ (usageReasonTable.filter fun p => decide (c &&& p.1 ≠ 0)).map Prod.snd
      ++ DumpStack stack := by
  have hbus : c &&& 0xFF00 = 0 := and_eq_zero_of_submask (by decide) hlow
  have hmem : c &&& 0xFF = 0 := and_eq_zero_of_submask (by decide) hlow
  have hbusn : ¬(c &&& 0xFF00 ≠ 0) := by simpa using hbus
  have hmemn : ¬(c &&& 0xFF ≠ 0) := by simpa using hmem
  simp only [Hard_Fault_Handler, usageStep, busStep, memStep, constStream, if_pos h30,
    if_pos hu, if_neg hbusn, if_neg hmemn]
  simp [printUsage_eq_table]

/-- Witness for C5 at the spec's concrete scenario: CFSR = 0x02000000 with
the forced bit set yields exactly the single sub-reason Divide by zero. -/
theorem usage_only_report_witness :
    ((0x40000000 : Nat) &&& (1 <<< 30) ≠ 0 ∧ (0x02000000 : Nat) &&& 0xFFFF0000 ≠ 0 ∧
      (0x02000000 : Nat) &&& 0xFFFF = 0) ∧
    (Hard_Fault_Handler (constStream 0x40000000 0x02000000 0 0) fun _ => 0).output =
      ["Hard Fault!!!\n", "SCB->HFSR = 0x" ++ hexString false 8 0x40000000 ++ "\n",
       "Forced Hard Fault\n", "SCB->CFSR = 0x" ++ hexString false 8 0x02000000 ++ "\n",
       "Usage fault: "]
      ++ (usageReasonTable.filter fun p => decide ((0x02000000 : Nat) &&& p.1 ≠ 0)).map Prod.snd
      ++ DumpStack (fun _ => 0) ∧
    (usageReasonTable.filter fun p => decide ((0x02000000 : Nat) &&& p.1 ≠ 0)).map Prod.snd
      = ["Divide by zero\n"] :=
  ⟨⟨by decide, by decide, by decide⟩,
   usage_only_report 0x40000000 0x02000000 0 0 (fun _ => 0) (by decide) (by decide) (by decide),
   by decide⟩

/-- C2 fails on the code for the bus category: at CFSR = 0x8100 the bus
token is the unshifted masked sub-field "8100" followed by a newline (five
characters, four hex digits), not a 2-hex-digit token (which with its
newline would have three characters). -/
theorem bus_token_counterexample :
    (printBusFaultErrorMsg 0x8100 0)[1]? = some "8100\n" ∧
    ("8100\n" : String).length ≠ 3 := by
  decide

/-- C2 amended: both tokens render exactly the masked sub-field (so no bits
of adjacent sub-fields), zero padded to a minimum of two uppercase hex
digits; the memory token is always exactly two digits, while the bus token
keeps the sub-field in bit positions 8..15 and so has up to four digits. -/
theorem rendered_tokens (c b m : Nat) :
    (printBusFaultErrorMsg c b)[1]? = some (hexString true 2 (c &&& 0xFF00) ++ "\n") ∧
    (printMemoryManagementErrorMsg c m)[1]? = some (hexString true 2 (c &&& 0xFF) ++ "\n") ∧
    (hexString true 2 (c &&& 0xFF)).length = 2 ∧
    2 ≤ (hexString true 2 (c &&& 0xFF00)).length ∧
    (hexString true 2 (c &&& 0xFF00)).length ≤ 4 := by
  refine ⟨?_, ?_, ?_, ?_, ?_⟩
  · simp [printBusFaultErrorMsg]
  · simp [printMemoryManagementErrorMsg]
  · exact hexString2_length_eq_two true
      (by have := Nat.and_le_right (n := c) (m := 0xFF); omega)
  · rw [hexString_length]; omega
  · exact hexString2_length_le_four true
      (by have := Nat.and_le_right (n := c) (m := 0xFF00); omega)

/-- C8: the sub-reasons of each category depend only on that category's
sub-field of the CFSR value: two values agreeing on bits 16..31 give the
same usage output, agreeing on bits 8..15 the same bus output, agreeing on
bits 0..7 the same memory output. -/
theorem subfield_independence (c c' b m : Nat) :
    (c &&& 0xFFFF0000 = c' &&& 0xFFFF0000 → printUsageErrorMsg c = printUsageErrorMsg c')
    ∧ (c &&& 0xFF00 = c' &&& 0xFF00 →
        printBusFaultErrorMsg c b = printBusFaultErrorMsg c' b)
    ∧ (c &&& 0xFF = c' &&& 0xFF →
        printMemoryManagementErrorMsg c m = printMemoryManagementErrorMsg c' m) := by
  refine ⟨?_, ?_, ?_⟩
  · intro he
    have e1 := and_eq_and_of_submask (t := SCB_CFSR_DIVBYZERO) (by decide) he
    have e2 := and_eq_and_of_submask (t := SCB_CFSR_INVSTATE) (by decide) he
    have e3 := and_eq_and_of_submask (t := SCB_CFSR_UNDEFINSTR) (by decide) he
    have e4 := and_eq_and_of_submask (t := SCB_CFSR_INVPC) (by decide) he
    have e5 := and_eq_and_of_submask (t := SCB_CFSR_NOCP) (by decide) he
    have e6 := and_eq_and_of_submask (t := SCB_CFSR_UNALIGNED) (by decide) he
    simp only [printUsageErrorMsg, e1, e2, e3, e4, e5, e6]
  · intro he
    simp only [printBusFaultErrorMsg, he]
  · intro he
    simp only [printMemoryManagementErrorMsg, he]

/-- Witness for C8: two values differing only above bit 31 produce
identical category outputs. -/
theorem subfield_independence_witness :
    ((0x102000101 : Nat) &&& 0xFFFF0000 = (0x02000101 : Nat) &&& 0xFFFF0000 ∧
      (0x102000101 : Nat) &&& 0xFF00 = (0x02000101 : Nat) &&& 0xFF00 ∧
      (0x102000101 : Nat) &&& 0xFF = (0x02000101 : Nat) &&& 0xFF) ∧
    printUsageErrorMsg 0x102000101 = printUsageErrorMsg 0x02000101 ∧
    printBusFaultErrorMsg 0x102000101 0 = printBusFaultErrorMsg 0x02000101 0 ∧
    printMemoryManagementErrorMsg 0x102000101 0 = printMemoryManagementErrorMsg 0x02000101 0 :=
  ⟨⟨by decide, by decide, by decide⟩,
   (subfield_independence 0x102000101 0x02000101 0 0).1 (by decide),
   (subfield_independence 0x102000101 0x02000101 0 0).2.1 (by decide),
   (subfield_independence 0x102000101 0x02000101 0 0).2.2 (by decide)⟩

/-- C10: a sub-field that is nonzero but sets none of its named flags still
yields its category block: the usage block is then exactly the bare header,
the bus and memory blocks are the header plus the hex token with no
sub-reason lines, and the usage header still reaches the report. -/
theorem empty_category_blocks (h c b m : Nat) (stack : Fin 8 → Nat) :
    (c &&& 0x030F0000 = 0 → printUsageErrorMsg c = ["Usage fault: "])
    ∧ (c &&& 0x9F00 = 0 →
        printBusFaultErrorMsg c b = ["Bus fault: ", hexString true 2 (c &&& 0xFF00) ++ "\n"])
    ∧ (c &&& 0x9B = 0 →
        printMemoryManagementErrorMsg c m
          = ["Memory Management (MPU) fault: ", hexString true 2 (c &&& 0xFF) ++ "\n"])
    ∧ (h &&& (1 <<< 30) ≠ 0 → c &&& 0xFFFF0000 ≠ 0 →
        "Usage fault: " ∈ (Hard_Fault_Handler (constStream h c b m) stack).output) := by
  refine ⟨?_, ?_, ?_, ?_⟩
  · intro hz
    have z1 : c &&& SCB_CFSR_DIVBYZERO = 0 := and_eq_zero_of_submask (by decide) hz
    have z2 : c &&& SCB_CFSR_INVSTATE = 0 := and_eq_zero_of_submask (by decide) hz
    have z3 : c &&& SCB_CFSR_UNDEFINSTR = 0 := and_eq_zero_of_submask (by decide) hz
    have z4 : c &&& SCB_CFSR_INVPC = 0 := and_eq_zero_of_submask (by decide) hz
    have z5 : c &&& SCB_CFSR_NOCP = 0 := and_eq_zero_of_submask (by decide) hz
    have z6 : c &&& SCB_CFSR_UNALIGNED = 0 := and_eq_zero_of_submask (by decide) hz
    simp [printUsageErrorMsg, z1, z2, z3, z4, z5, z6]
  · intro hz
    have zsub : ∀ t : Nat, 0xFF00 &&& t = t → 0x9F00 &&& t = t → c &&& 0xFF00 &&& t = 0 :=
      fun t h1 h2 => by
        rw [← and_submask c 0xFF00 t h1]
        exact and_eq_zero_of_submask h2 hz
    have z1 := zsub SCB_CFSR_IBUSERR (by decide) (by decide)
    have z2 := zsub SCB_CFSR_PRECISERR (by decide) (by decide)
    have z3 := zsub SCB_CFSR_IMPRECISERR (by decide) (by decide)
    have z4 := zsub SCB_CFSR_UNSTKERR (by decide) (by decide)
    have z5 := zsub SCB_CFSR_STKERR (by decide) (by decide)
    have z6 := zsub SCB_CFSR_BFARVALID (by decide) (by decide)
    simp [printBusFaultErrorMsg, z1, z2, z3, z4, z5, z6]
  · intro hz
    have zsub : ∀ t : Nat, 0xFF &&& t = t → 0x9B &&& t = t → c &&& 0xFF &&& t = 0 :=
      fun t h1 h2 => by
        rw [← and_submask c 0xFF t h1]
        exact and_eq_zero_of_submask h2 hz
    have z1 := zsub SCB_CFSR_IACCVIOL (by decide) (by decide)
    have z2 := zsub SCB_CFSR_DACCVIOL (by decide) (by decide)
    have z3 := zsub SCB_CFSR_MUNSTKERR (by decide) (by decide)
    have z4 := zsub SCB_CFSR_MSTKERR (by decide) (by decide)
    have z5 := zsub SCB_CFSR_MMARVALID (by decide) (by decide)
    simp [printMemoryManagementErrorMsg, z1, z2, z3, z4, z5]
  · intro h30 hu
    simp only [Hard_Fault_Handler, usageStep, busStep, memStep, constStream, if_pos h30,
      if_pos hu]
    simp [printUsage_eq_table]

/-- Witness for C10 at a usage value with only reserved bit 20 set, a bus
value with only reserved bit 13 set, and a memory value with only reserved
bit 2 set. -/
theorem empty_category_blocks_witness :
    ((0x00100000 : Nat) &&& 0x030F0000 = 0 ∧ (0x2000 : Nat) &&& 0x9F00 = 0 ∧
      (0x04 : Nat) &&& 0x9B = 0 ∧ (0x40000000 : Nat) &&& (1 <<< 30) ≠ 0 ∧
      (0x00100000 : Nat) &&& 0xFFFF0000 ≠ 0) ∧
    printUsageErrorMsg 0x00100000 = ["Usage fault: "] ∧
    printBusFaultErrorMsg 0x2000 0 =
      ["Bus fault: ", hexString true 2 ((0x2000 : Nat) &&& 0xFF00) ++ "\n"] ∧
    printMemoryManagementErrorMsg 0x04 0 =
      ["Memory Management (MPU) fault: ", hexString true 2 ((0x04 : Nat) &&& 0xFF) ++ "\n"] ∧
    "Usage fault: " ∈
      (Hard_Fault_Handler (constStream 0x40000000 0x00100000 0 0) fun _ => 0).output :=
  ⟨⟨by decide, by decide, by decide, by decide, by decide⟩,
   (empty_category_blocks 0x40000000 0x00100000 0 0 fun _ => 0).1 (by decide),
   (empty_category_blocks 0 0x2000 0 0 fun _ => 0).2.1 (by decide),
   (empty_category_blocks 0 0x04 0 0 fun _ => 0).2.2.1 (by decide),
   (empty_category_blocks 0x40000000 0x00100000 0 0 fun _ => 0).2.2.2 (by decide) (by decide)⟩

lemma mem_ite_singleton {α : Type} {s x : α} {p : Prop} [Decidable p]
    (h : s ∈ (if p then [x] else [])) : p ∧ s = x := by
  split at h
  · exact ⟨by assumption, by simpa using h⟩
  · simp at h

lemma BFARLine_length (b : Nat) : (BFARLine b).length = 70 := by
  rw [BFARLine, String.length_append, String.length_append, hexString_length8]
  decide

lemma MMFARLine_length (m : Nat) : (MMFARLine m).length = 75 := by
  rw [MMFARLine, String.length_append, String.length_append, hexString_length8]
  decide

lemma long_line_ne {s t : String} (hlen : 60 ≤ s.length) (ht : t.length ≤ 31) : s ≠ t := by
  intro e
  rw [e] at hlen
  omega

lemma token2_length_le (u : Bool) (n : Nat) : (hexString u 2 n ++ "\n").length ≤ 9 := by
  have := hexString_length_le8 u (w := 2) (by omega) n
  rw [String.length_append, show ("\n" : String).length = 1 from rfl]
  omega

lemma printBus_elements {c b : Nat} {s : String} (hs : s ∈ printBusFaultErrorMsg c b) :
    s = "Bus fault: " ∨ s = hexString true 2 (c &&& 0xFF00) ++ "\n" ∨
    s = "Instruction bus error\n" ∨ s = "Precise data bus error\n" ∨
    s = "Imprecise data bus error\n" ∨ s = "Unstacking error\n" ∨
    s = "Stacking error\n" ∨
    (c &&& 0xFF00 &&& SCB_CFSR_BFARVALID ≠ 0 ∧ s = BFARLine b) := by
  simp only [printBusFaultErrorMsg, List.mem_append, List.mem_cons, List.not_mem_nil,
    or_false] at hs
  rcases hs with ((((((hs | hs) | hs) | hs) | hs) | hs) | hs)
  · tauto
  · have := mem_ite_singleton hs; tauto
  · have := mem_ite_singleton hs; tauto
  · have := mem_ite_singleton hs; tauto
  · have := mem_ite_singleton hs; tauto
  · have := mem_ite_singleton hs; tauto
  · have := mem_ite_singleton hs; tauto

lemma printMem_elements {c m : Nat} {s : String}
    (hs : s ∈ printMemoryManagementErrorMsg c m) :
    s = "Memory Management (MPU) fault: " ∨ s = hexString true 2 (c &&& 0xFF) ++ "\n" ∨
    s = "Instruction access violation\n" ∨ s = "Data access violation\n" ∨
    s = "Unstacking error\n" ∨ s = "Stacking error\n" ∨
    (c &&& 0xFF &&& SCB_CFSR_MMARVALID ≠ 0 ∧ s = MMFARLine m) := by
  simp only [printMemoryManagementErrorMsg, List.mem_append, List.mem_cons,
    List.not_mem_nil, or_false] at hs
  rcases hs with (((((hs | hs) | hs) | hs) | hs) | hs)
  · tauto
  · have := mem_ite_singleton hs; tauto
  · have := mem_ite_singleton hs; tauto
  · have := mem_ite_singleton hs; tauto
  · have := mem_ite_singleton hs; tauto
  · have := mem_ite_singleton hs; tauto

/-- C6: a fault address register value is printed only when its validity
bit is set: with the bit clear the category output contains no address line
and does not depend on the address register at all; with the bit set the
address line, rendered with eight hex digits, is the last line of the
block.  Concretely, CFSR = 0x8100 with BFAR = 0x20000010 yields the
instruction-bus-error sub-reason plus the address line showing
0x20000010. -/
theorem address_validity_gating (c b m : Nat) :
    (if c &&& 0xFF00 &&& SCB_CFSR_BFARVALID = 0 then
       BFARLine b ∉ printBusFaultErrorMsg c b ∧
         ∀ b', printBusFaultErrorMsg c b' = printBusFaultErrorMsg c b
     else (printBusFaultErrorMsg c b).getLast? = some (BFARLine b))
    ∧ (if c &&& 0xFF &&& SCB_CFSR_MMARVALID = 0 then
         MMFARLine m ∉ printMemoryManagementErrorMsg c m ∧
           ∀ m', printMemoryManagementErrorMsg c m' = printMemoryManagementErrorMsg c m
       else (printMemoryManagementErrorMsg c m).getLast? = some (MMFARLine m))
    ∧ printBusFaultErrorMsg 0x8100 0x20000010 =
        ["Bus fault: ", "8100\n", "Instruction bus error\n",
         "Bus Fault Address Register address valid flag\nBFAR value = 0x20000010\n"] := by
  refine ⟨?_, ?_, by decide⟩
  · split_ifs with hv
    · constructor
      · intro hmem
        rcases printBus_elements hmem with hs | hs | hs | hs | hs | hs | hs | ⟨hc, _⟩
        · exact long_line_ne (by rw [BFARLine_length]; omega) (by decide) hs
        · exact long_line_ne (t := hexString true 2 (c &&& 0xFF00) ++ "\n")
            (by rw [BFARLine_length]; omega)
            (by have := token2_length_le true (c &&& 0xFF00); omega) hs
        · exact long_line_ne (by rw [BFARLine_length]; omega) (by decide) hs
        · exact long_line_ne (by rw [BFARLine_length]; omega) (by decide) hs
        · exact long_line_ne (by rw [BFARLine_length]; omega) (by decide) hs
        · exact long_line_ne (by rw [BFARLine_length]; omega) (by decide) hs
        · exact long_line_ne (by rw [BFARLine_length]; omega) (by decide) hs
        · exact hc hv
      · intro b'
        have hvn : ¬(c &&& 0xFF00 &&& SCB_CFSR_BFARVALID ≠ 0) := by simpa using hv
        simp only [printBusFaultErrorMsg, if_neg hvn]
    · simp only [printBusFaultErrorMsg, if_pos hv]
      exact List.getLast?_concat _
  · split_ifs with hv
    · constructor
      · intro hmem
        rcases printMem_elements hmem with hs | hs | hs | hs | hs | hs | ⟨hc, _⟩
        · exact long_line_ne (by rw [MMFARLine_length]; omega) (by decide) hs
        · exact long_line_ne (t := hexString true 2 (c &&& 0xFF) ++ "\n")
            (by rw [MMFARLine_length]; omega)
            (by have := token2_length_le true (c &&& 0xFF); omega) hs
        · exact long_line_ne (by rw [MMFARLine_length]; omega) (by decide) hs
        · exact long_line_ne (by rw [MMFARLine_length]; omega) (by decide) hs
        · exact long_line_ne (by rw [MMFARLine_length]; omega) (by decide) hs
        · exact long_line_ne (by rw [MMFARLine_length]; omega) (by decide) hs
        · exact hc hv
      · intro m'
        have hvn : ¬(c &&& 0xFF &&& SCB_CFSR_MMARVALID ≠ 0) := by simpa using hv
        simp only [printMemoryManagementErrorMsg, if_neg hvn]
    · simp only [printMemoryManagementErrorMsg, if_pos hv]
      exact List.getLast?_concat _

/-- Witness for C6: at CFSR = 0x8100 the BFAR value 0x20000010 ends the bus
block, while the memory validity bit is clear so no MMFAR line is
printed. -/
theorem address_validity_gating_witness :
    (printBusFaultErrorMsg 0x8100 0x20000010).getLast? = some (BFARLine 0x20000010) ∧
    MMFARLine 7 ∉ printMemoryManagementErrorMsg 0x8100 7 :=
  ⟨by
    have h := (address_validity_gating 0x8100 0x20000010 7).1
    rw [if_neg (by decide : ¬((0x8100 : Nat) &&& 0xFF00 &&& SCB_CFSR_BFARVALID = 0))] at h
    exact h,
   by
    have h := (address_validity_gating 0x8100 0x20000010 7).2.1
    rw [if_pos (by decide : (0x8100 : Nat) &&& 0xFF &&& SCB_CFSR_MMARVALID = 0)] at h
    exact h.1⟩

end CM3Fault
